import Mathlib

/-!
Shallow embedding of the privy-auth-demo client (two variants of the same
React component tree, plus an introspection script).

Variant v0 is the upload-capable client (src/unnamed/part_000); variant v1
is the plain client (src/unnamed/part_001).  Where the two files contain
textually identical code (the `handleBackendLogin` effect body), a single
definition embeds both, noted in its doc comment.  Where they differ
(the meData sync effect exists only in v0), each variant gets its own
definition.

JavaScript truthiness on nullable strings (`x || null`, `if (x)`) is made
explicit: `none` and `some ""` are falsy, every other `some s` is truthy.
-/

namespace PrivyDemo

/-- Backend User record, as selected by the Login/Me GraphQL operations
(part_000 lines 83-95/103-115): id, displayName, username,
profilePictureUrl, bio, createdAt, updatedAt — all strings on the wire. -/
structure User where
  id : String
  displayName : String
  username : String
  profilePictureUrl : String
  bio : String
  createdAt : String
  updatedAt : String
deriving DecidableEq, Repr

/-- A selected file as the handler reads it off the input event
(part_000 lines 191-198): name, MIME type string, size in bytes. -/
structure UpFile where
  name : String
  mime : String
  size : Nat
deriving DecidableEq, Repr

/-- JS truthiness of a nullable string: `null`/`undefined` and the empty
string are falsy. -/
def jsTruthy : Option String → Bool
  | none => false
  | some s => s ≠ ""

/-- The JS idiom `x || null` on a nullable string: falsy values (absent or
empty string) collapse to `null` (part_000 lines 186-188 and 261). -/
def jsOrNull (x : Option String) : Option String :=
  if jsTruthy x then x else none

/-- Observable actions of the upload handler: blocking alerts, the two
network operations (file upload, profile update with its refetch flag),
preview-state writes, and console.error diagnostics. -/
inductive UpAction where
  | alert (msg : String)
  | uploadReq (f : UpFile)
  | updateReq (userId : String) (profilePictureUrl : String) (refetchMe : Bool)
  | setPreview (p : Option String)
  | logError
deriving DecidableEq, Repr

/-- Outcome of awaiting the uploadFile mutation: it either resolves with
`data?.uploadFile?.url` (absent field modelled as `none`) or throws with
an error message. -/
inductive UploadOutcome where
  | resolved (url : Option String)
  | threw (msg : String)
deriving DecidableEq, Repr

/-- Outcome of awaiting the updateUser mutation. -/
inductive UpdateOutcome where
  | resolved
  | threw (msg : String)
deriving DecidableEq, Repr

/-- Environment of one `handleFileChange` run: the data-URL the FileReader
produces for the chosen file, and the two mutation outcomes. -/
structure UploadEnv where
  readerDataUrl : String
  uploadFile : UploadOutcome
  updateUser : UpdateOutcome
deriving Repr

/-- `file.type.startsWith('image/')` (part_000 line 201), expressed on the
character sequence of the MIME string (same predicate as the byte-level
`String.startsWith`, kernel-evaluable). -/
def mimeIsImage (mime : String) : Bool :=
  "image/".data.isPrefixOf mime.data

/-- part_000 line 207: `const MAX_FILE_SIZE = 5 * 1024 * 1024`. -/
def MAX_FILE_SIZE : Nat := 5 * 1024 * 1024

/-- The failure alert of part_000 line 260:
`Failed to upload image: ${error.message || 'Please try again.'}`. -/
def failAlertText (msg : String) : String :=
  "Failed to upload image: " ++ (if msg = "" then "Please try again." else msg)

/-- `handleFileChange` of ProfileImageUpload (part_000 lines 190-265).
Inputs: the component props (`userId`, `currentImageUrl`), the current
`previewUrl` state, the selected file (`e.target.files?.[0]`, absent
modelled as `none`), and the run's environment.  Output: the emitted
actions in program order and the final `previewUrl` state.

Control flow mirrors the source: missing file returns at once; the MIME
check (line 201) precedes the size check (line 208); inside the try the
FileReader preview write precedes the upload await; a resolved upload
with a falsy `data?.uploadFile?.url` throws
`'No URL returned from upload'`; the catch block logs, alerts, and sets
the preview to `currentImageUrl || null`. -/
def handleFileChange (userId : String) (currentImageUrl : Option String)
    (previewUrl : Option String) (file : Option UpFile) (env : UploadEnv) :
    List UpAction × Option String :=
  match file with
  | none => ([], previewUrl)
  | some f =>
    if ¬ mimeIsImage f.mime then
      ([UpAction.alert "Please select an image file"], previewUrl)
    else if f.size > MAX_FILE_SIZE then
      -- `${MAX_FILE_SIZE / 1024 / 1024}MB` evaluates to "5MB"
      ([UpAction.alert "File size must be less than 5MB"], previewUrl)
    else
      let readerPreview := some env.readerDataUrl
      let reverted := jsOrNull currentImageUrl
      match env.uploadFile with
      | UploadOutcome.threw msg =>
          ([UpAction.setPreview readerPreview, UpAction.uploadReq f,
            UpAction.logError, UpAction.alert (failAlertText msg),
            UpAction.setPreview reverted], reverted)
      | UploadOutcome.resolved url =>
          if jsTruthy url then
            let imageUrl := url.getD ""
            match env.updateUser with
            | UpdateOutcome.resolved =>
                ([UpAction.setPreview readerPreview, UpAction.uploadReq f,
                  UpAction.updateReq userId imageUrl true,
                  UpAction.alert "Profile picture updated successfully!"],
                 readerPreview)
            | UpdateOutcome.threw msg =>
                ([UpAction.setPreview readerPreview, UpAction.uploadReq f,
                  UpAction.updateReq userId imageUrl true,
                  UpAction.logError, UpAction.alert (failAlertText msg),
                  UpAction.setPreview reverted], reverted)
          else
            -- `throw new Error('No URL returned from upload')`, caught below
            ([UpAction.setPreview readerPreview, UpAction.uploadReq f,
              UpAction.logError,
              UpAction.alert (failAlertText "No URL returned from upload"),
              UpAction.setPreview reverted], reverted)

/-- An action that reaches the network: the upload or the update request. -/
def isNetwork : UpAction → Bool
  | UpAction.uploadReq _ => true
  | UpAction.updateReq _ _ _ => true
  | _ => false

/-- An action that is a profile-update request. -/
def isUpdateReq : UpAction → Bool
  | UpAction.updateReq _ _ _ => true
  | _ => false

/-- Observable actions of the session orchestrator: the login-exchange
request carrying the bearer token, and console.error diagnostics. -/
inductive AuthAction where
  | reqLogin (privyToken : String)
  | logError
deriving DecidableEq, Repr

/-- Outcome of awaiting the login mutation: resolves with
`result.data?.login` (absent modelled as `none`), or throws (network
failure or GraphQL error payload, which Apollo surfaces as a rejection). -/
inductive ExchangeOutcome where
  | resolved (u : Option User)
  | threw
deriving DecidableEq, Repr

/-- `handleBackendLogin` of AuthComponent — the effect body is textually
identical in both variants (part_000 lines 346-367 and part_001 lines
122-143).  Inputs: the `authenticated` flag, the cached `backendUser`,
the `getAccessToken` result (nullable), and the login-exchange oracle.
Output: emitted actions and the new cached backend user.

Mirrors the source: the guard is `authenticated && !backendUser`; the
inner `if (accessToken)` is a JS truthiness check, so a falsy token —
null or the empty string — takes no action; otherwise the mutation is
issued with the token; `if (result.data?.login)` caches the record; a
throw is caught and logged (console.error) only. -/
def handleBackendLogin (authenticated : Bool) (backendUser : Option User)
    (accessToken : Option String) (loginExchange : String → ExchangeOutcome) :
    List AuthAction × Option User :=
  if authenticated ∧ backendUser = none then
    match accessToken with
    | none => ([], backendUser)
    | some tok =>
      if jsTruthy (some tok) then
        match loginExchange tok with
        | ExchangeOutcome.resolved (some u) => ([AuthAction.reqLogin tok], some u)
        | ExchangeOutcome.resolved none => ([AuthAction.reqLogin tok], backendUser)
        | ExchangeOutcome.threw => ([AuthAction.reqLogin tok, AuthAction.logError], backendUser)
      else ([], backendUser)
  else ([], backendUser)

/-- The effect's dependency tuple (part_000 line 370 / part_001 line 146:
`[authenticated, backendUser, getAccessToken, loginMutation]`); the two
function identities are render-stable, so the varying dependencies are
the flag and the cached user. -/
abbrev EffectDeps := Bool × Option User

/-- AuthComponent state relevant to the orchestrator effect: the cached
backend user and the dependency tuple at the last effect run (`none`
before the first run; React runs the effect after the first render and
after every render where a dependency changed). -/
structure OrchState where
  backendUser : Option User
  lastDeps : Option EffectDeps
deriving DecidableEq, Repr

/-- One render of AuthComponent: the effect runs exactly when its
dependency tuple differs from the one recorded at the last run. -/
def renderStep (authenticated : Bool) (accessToken : Option String)
    (loginExchange : String → ExchangeOutcome) (s : OrchState) :
    List AuthAction × OrchState :=
  let deps : EffectDeps := (authenticated, s.backendUser)
  if s.lastDeps = some deps then ([], s)
  else
    let r := handleBackendLogin authenticated s.backendUser accessToken loginExchange
    (r.1, ⟨r.2, some deps⟩)

/-- A sequence of `n` renders with a fixed provider flag and fixed
oracles, accumulating the emitted actions. -/
def renderTrace (authenticated : Bool) (accessToken : Option String)
    (loginExchange : String → ExchangeOutcome) :
    Nat → OrchState → List AuthAction × OrchState
  | 0, s => ([], s)
  | n + 1, s =>
    let r := renderStep authenticated accessToken loginExchange s
    let t := renderTrace authenticated accessToken loginExchange n r.2
    (r.1 ++ t.1, t.2)

/-- An action that is a login-exchange request. -/
def isLoginReq : AuthAction → Bool
  | AuthAction.reqLogin _ => true
  | AuthAction.logError => false

/-- Number of login-exchange requests in a list of actions. -/
def countLoginReqs (l : List AuthAction) : Nat :=
  (l.filter isLoginReq).length

/-- Outcome of awaiting one of the two logout calls. -/
inductive CallOutcome where
  | ok
  | threw
deriving DecidableEq, Repr

/-- The two logout calls, tagged by callee. -/
inductive LogoutCall where
  | provider
  | backend
deriving DecidableEq, Repr

/-- The Sign Out onClick handler of variant v0 (part_000 lines 546-563):
`await logout()` (the identity provider), then `await logoutMutation()`
(the backend), then `setBackendUser(null)`; a throw anywhere jumps to the
catch, which only logs, leaving the cached user untouched.  Output: the
calls issued in order, and the cached backend user afterwards. -/
def signOutHandler_v0 (providerLogout backendLogout : CallOutcome)
    (backendUser : Option User) : List LogoutCall × Option User :=
  match providerLogout with
  | CallOutcome.threw => ([LogoutCall.provider], backendUser)
  | CallOutcome.ok =>
    match backendLogout with
    | CallOutcome.threw => ([LogoutCall.provider, LogoutCall.backend], backendUser)
    | CallOutcome.ok => ([LogoutCall.provider, LogoutCall.backend], none)

/-- The Sign Out onClick handler of variant v1 (part_001 lines 309-326):
same text as v0 — `await logout()` first, then `await logoutMutation()`,
then `setBackendUser(null)`, catch logs only. -/
def signOutHandler_v1 (providerLogout backendLogout : CallOutcome)
    (backendUser : Option User) : List LogoutCall × Option User :=
  match providerLogout with
  | CallOutcome.threw => ([LogoutCall.provider], backendUser)
  | CallOutcome.ok =>
    match backendLogout with
    | CallOutcome.threw => ([LogoutCall.provider, LogoutCall.backend], backendUser)
    | CallOutcome.ok => ([LogoutCall.provider, LogoutCall.backend], none)

/-- The `skip` option of the me-query, identical in both variants
(part_000 line 342, part_001 line 118): `skip: !backendUser`. -/
def meQuerySkip (backendUser : Option User) : Bool :=
  backendUser.isNone

/-- The meData sync effect of variant v0 (part_000 lines 373-377):
`if (meData?.me) setBackendUser(meData.me)`.  Returns the cached backend
user after the effect, given the query result. -/
def syncMeData_v0 (meData : Option User) (backendUser : Option User) :
    Option User :=
  match meData with
  | some u => some u
  | none => backendUser

/-- Variant v1 declares the me-query (part_001 lines 117-119) but contains
no effect consuming `meData`; the query result is never written to the
cached backend user, which therefore passes through unchanged. -/
def syncMeData_v1 (_meData : Option User) (backendUser : Option User) :
    Option User :=
  backendUser

/-- A concrete backend user record, for witnesses and counterexamples. -/
def demoUser : User :=
  ⟨"u1", "Ann", "ann", "https://s/p.png", "", "2024-01-01", "2024-01-01"⟩

/-- A second concrete backend user record, distinct from `demoUser`. -/
def demoUser2 : User :=
  ⟨"u2", "Bob", "bob", "", "", "2024-02-02", "2024-02-02"⟩

/-- An upload attempt that fails after validation passed: the upload
mutation throws, or it resolves with a falsy `data?.uploadFile?.url`, or
the url is truthy and the profile-update mutation throws — exactly the
runs whose control flow reaches the catch block of part_000 lines
253-261. -/
def attemptFails (env : UploadEnv) : Bool :=
  match env.uploadFile with
  | UploadOutcome.threw _ => true
  | UploadOutcome.resolved url =>
    if jsTruthy url then
      match env.updateUser with
      | UpdateOutcome.resolved => false
      | UpdateOutcome.threw _ => true
    else true

/-- A small valid image file. -/
def imgFile1 : UpFile := ⟨"a.png", "image/png", 100⟩

/-- A second small valid image file. -/
def imgFile2 : UpFile := ⟨"b.png", "image/png", 200⟩

/-- An image file over the 5 MiB ceiling. -/
def bigFile : UpFile := ⟨"big.png", "image/png", 6 * 1024 * 1024⟩

/-- A non-image file over the 5 MiB ceiling. -/
def bigTextFile : UpFile := ⟨"big.txt", "text/plain", 6 * 1024 * 1024⟩

/-- Environment of a fully successful upload run. -/
def envOk : UploadEnv :=
  ⟨"data:image/png;base64,first", UploadOutcome.resolved (some "https://s/new.png"),
   UpdateOutcome.resolved⟩

/-- Environment where the upload mutation throws. -/
def envFail : UploadEnv :=
  ⟨"data:image/png;base64,second", UploadOutcome.threw "Network error",
   UpdateOutcome.resolved⟩

/-- Environment where the upload resolves without a url field. -/
def envNoUrl : UploadEnv :=
  ⟨"data:image/png;base64,third", UploadOutcome.resolved none,
   UpdateOutcome.resolved⟩

end PrivyDemo

namespace PrivyDemo

example :
    handleFileChange "u1" none none
      (some ⟨"a.png", "image/png", 100⟩)
      ⟨"data:1", UploadOutcome.resolved (some "https://x/y.png"),
        UpdateOutcome.resolved⟩ =
    ([UpAction.setPreview (some "data:1"),
      UpAction.uploadReq ⟨"a.png", "image/png", 100⟩,
      UpAction.updateReq "u1" "https://x/y.png" true,
      UpAction.alert "Profile picture updated successfully!"],
     some "data:1") := by
  decide

example :
    handleFileChange "u1" none none
      (some ⟨"a.txt", "text/plain", 100⟩)
      ⟨"data:1", UploadOutcome.resolved (some "https://x/y.png"),
        UpdateOutcome.resolved⟩ =
    ([UpAction.alert "Please select an image file"], none) := by
  decide

/-- With a cached backend user the guard `authenticated && !backendUser`
fails, so the effect body does nothing. -/
lemma handleBackendLogin_cached (authenticated : Bool) (u : User)
    (accessToken : Option String) (loginExchange : String → ExchangeOutcome) :
    handleBackendLogin authenticated (some u) accessToken loginExchange
      = ([], some u) := by
  simp [handleBackendLogin]

/-- Login-request count distributes over concatenation. -/
lemma countLoginReqs_append (a b : List AuthAction) :
    countLoginReqs (a ++ b) = countLoginReqs a + countLoginReqs b := by
  simp [countLoginReqs, List.filter_append]

/-- A render from a state with a cached backend user emits no actions and
keeps the cached user. -/
lemma renderStep_cached (authenticated : Bool) (accessToken : Option String)
    (loginExchange : String → ExchangeOutcome) (s : OrchState) (u : User)
    (h : s.backendUser = some u) :
    (renderStep authenticated accessToken loginExchange s).1 = [] ∧
    (renderStep authenticated accessToken loginExchange s).2.backendUser = some u := by
  obtain ⟨bu, ld⟩ := s
  simp only [OrchState.backendUser] at h
  subst h
  simp only [renderStep]
  split
  · exact ⟨rfl, rfl⟩
  · simp [handleBackendLogin_cached]

/-- No render trace starting from a state with a cached backend user ever
issues a login-exchange request. -/
lemma renderTrace_cached (authenticated : Bool) (accessToken : Option String)
    (loginExchange : String → ExchangeOutcome) (u : User) :
    ∀ (n : Nat) (s : OrchState), s.backendUser = some u →
      countLoginReqs (renderTrace authenticated accessToken loginExchange n s).1 = 0
  | 0, s, _ => by simp [renderTrace, countLoginReqs]
  | n + 1, s, h => by
    have hstep := renderStep_cached authenticated accessToken loginExchange s u h
    simp only [renderTrace, countLoginReqs_append]
    rw [hstep.1]
    have hrec := renderTrace_cached authenticated accessToken loginExchange u n
      (renderStep authenticated accessToken loginExchange s).2 hstep.2
    simp [countLoginReqs] at hrec ⊢
    exact hrec

/-- A render whose dependency tuple equals the one recorded at the last
effect run is a no-op: the effect does not re-run. -/
lemma renderStep_redundant (authenticated : Bool) (accessToken : Option String)
    (loginExchange : String → ExchangeOutcome) (s : OrchState)
    (h : s.lastDeps = some (authenticated, s.backendUser)) :
    renderStep authenticated accessToken loginExchange s = ([], s) := by
  simp [renderStep, h]

/-- Iterating redundant renders stays a no-op. -/
lemma renderTrace_redundant (authenticated : Bool) (accessToken : Option String)
    (loginExchange : String → ExchangeOutcome) :
    ∀ (n : Nat) (s : OrchState), s.lastDeps = some (authenticated, s.backendUser) →
      renderTrace authenticated accessToken loginExchange n s = ([], s)
  | 0, _, _ => rfl
  | n + 1, s, h => by
    simp only [renderTrace, renderStep_redundant authenticated accessToken loginExchange s h]
    simp [renderTrace_redundant authenticated accessToken loginExchange n s h]

/-- From a provider-authenticated state with no cached backend user whose
effect is due to run, a trace of any positive length issues exactly one
login-exchange request when the retrieved token is truthy, and none when
it is null or empty. -/
lemma renderTrace_transition (accessToken : Option String)
    (loginExchange : String → ExchangeOutcome) (n : Nat) (s : OrchState)
    (h0 : s.backendUser = none) (h1 : s.lastDeps ≠ some (true, none)) :
    countLoginReqs (renderTrace true accessToken loginExchange (n + 1) s).1
      = if jsTruthy accessToken then 1 else 0 := by
  obtain ⟨bu, ld⟩ := s
  simp only [OrchState.backendUser] at h0
  subst h0
  simp only [OrchState.lastDeps] at h1
  cases haT : jsTruthy accessToken with
  | false =>
    have hb : renderStep true accessToken loginExchange ⟨none, ld⟩
        = ([], ⟨none, some (true, none)⟩) := by
      cases accessToken with
      | none => simp [renderStep, handleBackendLogin, h1]
      | some t => simp [renderStep, handleBackendLogin, h1, haT]
    have ht := renderTrace_redundant true accessToken loginExchange n
      ⟨none, some (true, none)⟩ rfl
    simp [renderTrace, hb, ht, countLoginReqs]
  | true =>
    obtain ⟨t, rfl⟩ : ∃ t, accessToken = some t := by
      cases accessToken with
      | none => simp [jsTruthy] at haT
      | some t => exact ⟨t, rfl⟩
    cases hlt : loginExchange t with
    | resolved ou =>
      cases ou with
      | some u =>
        have hb : renderStep true (some t) loginExchange ⟨none, ld⟩
            = ([AuthAction.reqLogin t], ⟨some u, some (true, none)⟩) := by
          simp [renderStep, handleBackendLogin, h1, hlt, haT]
        have ht := renderTrace_cached true (some t) loginExchange u n
          ⟨some u, some (true, none)⟩ rfl
        simp only [renderTrace, hb]
        rw [countLoginReqs_append, ht]
        simp [countLoginReqs, isLoginReq]
      | none =>
        have hb : renderStep true (some t) loginExchange ⟨none, ld⟩
            = ([AuthAction.reqLogin t], ⟨none, some (true, none)⟩) := by
          simp [renderStep, handleBackendLogin, h1, hlt, haT]
        have ht := renderTrace_redundant true (some t) loginExchange n
          ⟨none, some (true, none)⟩ rfl
        simp [renderTrace, hb, ht, countLoginReqs, isLoginReq]
    | threw =>
      have hb : renderStep true (some t) loginExchange ⟨none, ld⟩
          = ([AuthAction.reqLogin t, AuthAction.logError], ⟨none, some (true, none)⟩) := by
        simp [renderStep, handleBackendLogin, h1, hlt, haT]
      have ht := renderTrace_redundant true (some t) loginExchange n
        ⟨none, some (true, none)⟩ rfl
      simp [renderTrace, hb, ht, countLoginReqs, isLoginReq]

/-- C1 (counterexample): the claim says the two variants' sign-out
handlers issue the backend and provider logout calls in different orders.
At the concrete successful run both handlers issue the identical sequence
[provider, backend], so the orders are the same. -/
theorem c1_counterexample :
    (signOutHandler_v0 CallOutcome.ok CallOutcome.ok (some demoUser)).1
      = (signOutHandler_v1 CallOutcome.ok CallOutcome.ok (some demoUser)).1
    ∧ (signOutHandler_v0 CallOutcome.ok CallOutcome.ok (some demoUser)).1
      = [LogoutCall.provider, LogoutCall.backend] := by
  decide

/-- C1 (amended): the two client variants agree on logout ordering — both
sign-out handlers behave identically on every input, awaiting the
identity provider's logout first and the backend logout operation second
(on a successful provider logout the call sequence is
[provider, backend]; the first call issued is always the provider's). -/
theorem c1_amended :
    ∀ (p b : CallOutcome) (bu : Option User),
      signOutHandler_v0 p b bu = signOutHandler_v1 p b bu
      ∧ (signOutHandler_v0 CallOutcome.ok b bu).1
          = [LogoutCall.provider, LogoutCall.backend]
      ∧ (signOutHandler_v0 p b bu).1.head? = some LogoutCall.provider := by
  intro p b bu
  cases p <;> cases b <;> simp [signOutHandler_v0, signOutHandler_v1]

/-- C2 (counterexample): a transition into the provider-authenticated
state with no cached backend user and a retrieved, non-null access token
— the empty string, which the source's `if (accessToken)` truthiness
check skips — issues zero login-exchange requests, contradicting "never
zero given a retrievable token". -/
theorem c2_counterexample :
    countLoginReqs ((renderTrace true (some "")
        (fun _ => ExchangeOutcome.resolved (some demoUser)) 3
        ⟨none, none⟩).1) = 0
    ∧ (some "" : Option String) ≠ none := by
  decide

/-- C2 (amended): along any render trace with stable oracles, (i) no
login-exchange request is ever issued while a backend user is cached;
(ii) a transition into the provider-authenticated state with no cached
backend user whose effect is due to run issues exactly one login-exchange
request when the retrieved token is truthy (non-null and non-empty) and
zero when it is falsy (null or empty), however many further renders
follow; (iii) a render whose dependency tuple is unchanged since the last
effect run (a redundant re-render) emits nothing and leaves the state
untouched. -/
theorem c2_amended (accessToken : Option String)
    (loginExchange : String → ExchangeOutcome) (n : Nat) :
    (∀ (s : OrchState) (u : User), s.backendUser = some u →
      ∀ authenticated : Bool,
        countLoginReqs
          (renderTrace authenticated accessToken loginExchange n s).1 = 0)
    ∧
    (∀ s : OrchState, s.backendUser = none →
      s.lastDeps ≠ some (true, none) →
      countLoginReqs (renderTrace true accessToken loginExchange (n + 1) s).1
        = if jsTruthy accessToken then 1 else 0)
    ∧
    (∀ (s : OrchState) (authenticated : Bool),
      s.lastDeps = some (authenticated, s.backendUser) →
      renderStep authenticated accessToken loginExchange s = ([], s)) := by
  refine ⟨?_, ?_, ?_⟩
  · intro s u h authenticated
    exact renderTrace_cached authenticated accessToken loginExchange u n s h
  · intro s h0 h1
    exact renderTrace_transition accessToken loginExchange n s h0 h1
  · intro s authenticated h
    exact renderStep_redundant authenticated accessToken loginExchange s h

/-- Witness for C2 (amended) at concrete inputs: a three-render trace from
the freshly-authenticated state issues exactly one request with a truthy
token and zero with the empty-string token; a two-render trace from a
cached state issues none; a redundant render is a no-op. -/
theorem c2_witness :
    countLoginReqs ((renderTrace true (some "tok_abc")
        (fun _ => ExchangeOutcome.resolved (some demoUser)) 3
        ⟨none, none⟩).1) = 1
    ∧ countLoginReqs ((renderTrace true (some "")
        (fun _ => ExchangeOutcome.threw) 3 ⟨none, none⟩).1) = 0
    ∧ countLoginReqs ((renderTrace true (some "tok_abc")
        (fun _ => ExchangeOutcome.resolved (some demoUser)) 2
        ⟨some demoUser, none⟩).1) = 0
    ∧ renderStep true (some "tok_abc")
        (fun _ => ExchangeOutcome.resolved (some demoUser))
        ⟨none, some (true, none)⟩ = ([], ⟨none, some (true, none)⟩) := by
  refine ⟨?_, ?_, ?_, ?_⟩
  · have h := (c2_amended (some "tok_abc")
      (fun _ => ExchangeOutcome.resolved (some demoUser)) 2).2.1
      ⟨none, none⟩ rfl (by simp)
    rw [h]
    decide
  · have h := (c2_amended (some "")
      (fun _ => ExchangeOutcome.threw) 2).2.1 ⟨none, none⟩ rfl (by simp)
    rw [h]
    decide
  · exact (c2_amended (some "tok_abc")
      (fun _ => ExchangeOutcome.resolved (some demoUser)) 2).1
      ⟨some demoUser, none⟩ demoUser rfl true
  · exact (c2_amended (some "tok_abc")
      (fun _ => ExchangeOutcome.resolved (some demoUser)) 0).2.2
      ⟨none, some (true, none)⟩ true rfl

/-- C3 (counterexample): a retrieved access token that is not null but is
the empty string — JS-falsy — produces no login-exchange request and
caches nothing, even with an exchange oracle that would succeed;
contradicting "otherwise a login exchange carrying exactly that token is
issued" for a non-null token. -/
theorem c3_counterexample :
    handleBackendLogin true none (some "")
        (fun _ => ExchangeOutcome.resolved (some demoUser)) = ([], none)
    ∧ (some "" : Option String) ≠ none := by
  decide

/-- C3 (amended): with the provider authenticated and no cached backend
user, a falsy access token — null or the empty string, per the source's
`if (accessToken)` truthiness check — produces no action and leaves the
state unchanged; a truthy token produces exactly one login-exchange
request carrying that token; a successful exchange caches the returned
record; a thrown exchange is logged only (no alert action exists in the
orchestrator at all), with no retry and the cached backend user still
null. -/
theorem c3_amended (loginExchange : String → ExchangeOutcome) :
    (∀ accessToken : Option String, jsTruthy accessToken = false →
      handleBackendLogin true none accessToken loginExchange = ([], none))
    ∧ (∀ (t : String) (u : User), t ≠ "" →
        loginExchange t = ExchangeOutcome.resolved (some u) →
        handleBackendLogin true none (some t) loginExchange
          = ([AuthAction.reqLogin t], some u))
    ∧ (∀ t : String, t ≠ "" → loginExchange t = ExchangeOutcome.threw →
        handleBackendLogin true none (some t) loginExchange
          = ([AuthAction.reqLogin t, AuthAction.logError], none)) := by
  refine ⟨?_, ?_, ?_⟩
  · intro accessToken h
    cases accessToken with
    | none => simp [handleBackendLogin]
    | some t => simp [handleBackendLogin, h]
  · intro t u ht h
    simp [handleBackendLogin, jsTruthy, ht, h]
  · intro t ht h
    simp [handleBackendLogin, jsTruthy, ht, h]

/-- Witness for C3 (amended) at concrete inputs: null token, empty-string
token, successful exchange, and thrown exchange. -/
theorem c3_witness :
    handleBackendLogin true none none (fun _ => ExchangeOutcome.threw)
      = ([], none)
    ∧ handleBackendLogin true none (some "")
        (fun _ => ExchangeOutcome.threw) = ([], none)
    ∧ handleBackendLogin true none (some "tok_abc")
        (fun _ => ExchangeOutcome.resolved (some demoUser))
      = ([AuthAction.reqLogin "tok_abc"], some demoUser)
    ∧ handleBackendLogin true none (some "tok_abc")
        (fun _ => ExchangeOutcome.threw)
      = ([AuthAction.reqLogin "tok_abc", AuthAction.logError], none) :=
  ⟨(c3_amended (fun _ => ExchangeOutcome.threw)).1 none (by decide),
   (c3_amended (fun _ => ExchangeOutcome.threw)).1 (some "") (by decide),
   (c3_amended (fun _ => ExchangeOutcome.resolved (some demoUser))).2.1
     "tok_abc" demoUser (by decide) rfl,
   (c3_amended (fun _ => ExchangeOutcome.threw)).2.2 "tok_abc" (by decide) rfl⟩

/-- C4 (counterexample): with a backend user cached the me-query does run
(skip lifted), but in variant v1 a query result carrying a different user
record leaves the cached backend user unchanged — it is not overwritten
with the query result, contradicting the claim for "both client
variants". -/
theorem c4_counterexample :
    meQuerySkip (some demoUser) = false
    ∧ syncMeData_v1 (some demoUser2) (some demoUser) = some demoUser
    ∧ some demoUser ≠ some demoUser2 := by
  decide

/-- C4 (amended): in both client variants the me-query's skip condition is
lifted exactly when a backend user is cached; in the upload-capable
variant (v0) any user record returned by the query overwrites the cached
backend user (last-write-wins, no conflict detection), while the plain
variant (v1) never propagates the query result into the cache. -/
theorem c4_amended :
    (∀ u : User, meQuerySkip (some u) = false)
    ∧ meQuerySkip none = true
    ∧ (∀ (u : User) (bu : Option User), syncMeData_v0 (some u) bu = some u)
    ∧ (∀ bu : Option User, syncMeData_v0 none bu = bu)
    ∧ (∀ md bu : Option User, syncMeData_v1 md bu = bu) := by
  refine ⟨fun u => rfl, rfl, fun u bu => rfl, fun bu => rfl, fun md bu => rfl⟩

/-- C5 (counterexample): when either logout call throws, the handler's
catch runs before `setBackendUser(null)` is reached, so the cached
backend user is not cleared — in both variants. -/
theorem c5_counterexample :
    (signOutHandler_v0 CallOutcome.threw CallOutcome.ok (some demoUser)).2
      = some demoUser
    ∧ (signOutHandler_v0 CallOutcome.ok CallOutcome.threw (some demoUser)).2
      = some demoUser
    ∧ (signOutHandler_v1 CallOutcome.threw CallOutcome.ok (some demoUser)).2
      = some demoUser
    ∧ (some demoUser ≠ (none : Option User)) := by
  decide

/-- C5 (amended): for every explicit user logout action, in both variants,
the cached backend user is cleared exactly when both the provider logout
and the backend logout call succeed; if either call throws, the error is
only logged and the cached backend user remains unchanged. -/
theorem c5_amended :
    ∀ (p b : CallOutcome) (bu : Option User),
      (signOutHandler_v0 p b bu).2
        = (if p = CallOutcome.ok ∧ b = CallOutcome.ok then none else bu)
      ∧ (signOutHandler_v1 p b bu).2
        = (if p = CallOutcome.ok ∧ b = CallOutcome.ok then none else bu) := by
  intro p b bu
  cases p <;> cases b <;> simp [signOutHandler_v0, signOutHandler_v1]

/-- C6 (counterexample): from the mount-initial preview a successful
upload leaves the preview holding the FileReader data-URL; a following
failed attempt then "reverts" the preview to the `currentImageUrl` prop,
not to the data-URL value held just before that attempt — so the preview
is not restored exactly to the value held before the upload attempt. -/
theorem c6_counterexample :
    (handleFileChange "u1" (some "https://s/p.png")
        (jsOrNull (some "https://s/p.png")) (some imgFile1) envOk).2
      = some "data:image/png;base64,first"
    ∧ (handleFileChange "u1" (some "https://s/p.png")
        (some "data:image/png;base64,first") (some imgFile2) envFail).2
      = some "https://s/p.png"
    ∧ (some "https://s/p.png" : Option String)
        ≠ some "data:image/png;base64,first" := by
  decide

/-- C6 (amended): for every upload attempt that fails after validation
passed (upload throw, falsy url, or profile-update throw), the displayed
preview is set to the `currentImageUrl` prop coerced through `|| null`
(so none when the prop is absent or empty); this equals the value held
before the attempt only when that value was already the prop's, e.g. on
the first attempt after mount, not in general. -/
theorem c6_amended (userId : String) (currentImageUrl previewUrl : Option String)
    (f : UpFile) (env : UploadEnv)
    (h1 : mimeIsImage f.mime = true) (h2 : f.size ≤ MAX_FILE_SIZE)
    (h3 : attemptFails env = true) :
    (handleFileChange userId currentImageUrl previewUrl (some f) env).2
      = jsOrNull currentImageUrl := by
  obtain ⟨rdu, up, upd⟩ := env
  have h2' : ¬ (f.size > MAX_FILE_SIZE) := Nat.not_lt.mpr h2
  cases up with
  | threw m =>
    simp [handleFileChange, h1, h2']
  | resolved url =>
    cases hu : jsTruthy url with
    | false =>
      simp [handleFileChange, h1, h2', hu]
    | true =>
      cases upd with
      | resolved =>
        simp [attemptFails, hu] at h3
      | threw m =>
        simp [handleFileChange, h1, h2', hu]

/-- Witness for C6 (amended) at concrete inputs: a failing upload from a
data-URL preview ends at the prop value. -/
theorem c6_witness :
    (handleFileChange "u1" (some "https://s/p.png")
        (some "data:image/png;base64,first") (some imgFile1) envFail).2
      = jsOrNull (some "https://s/p.png") :=
  c6_amended "u1" (some "https://s/p.png") (some "data:image/png;base64,first")
    imgFile1 envFail (by decide) (by decide) (by decide)

/-- C7: when the upload resolves with a truthy (non-empty) url and
validation passed, the emitted actions begin with the preview write, the
upload request, and — immediately next — a profile-update request whose
picture-URL input is that very url string, with the me-query refetch
requested alongside. -/
theorem c7_update_uses_upload_url (userId : String)
    (currentImageUrl previewUrl : Option String) (f : UpFile) (env : UploadEnv)
    (url : String)
    (h1 : mimeIsImage f.mime = true) (h2 : f.size ≤ MAX_FILE_SIZE)
    (h3 : env.uploadFile = UploadOutcome.resolved (some url)) (h4 : url ≠ "") :
    ((handleFileChange userId currentImageUrl previewUrl (some f) env).1.take 3)
      = [UpAction.setPreview (some env.readerDataUrl), UpAction.uploadReq f,
         UpAction.updateReq userId url true] := by
  obtain ⟨rdu, up, upd⟩ := env
  simp only [UploadEnv.uploadFile] at h3
  subst h3
  have h2' : ¬ (f.size > MAX_FILE_SIZE) := Nat.not_lt.mpr h2
  cases upd with
  | resolved =>
    simp [handleFileChange, h1, h2', jsTruthy, h4]
  | threw m =>
    simp [handleFileChange, h1, h2', jsTruthy, h4]

/-- Witness for C7 at concrete inputs: the update request carries exactly
the url returned by the upload. -/
theorem c7_witness :
    ((handleFileChange "u1" none none (some imgFile1) envOk).1.take 3)
      = [UpAction.setPreview (some "data:image/png;base64,first"),
         UpAction.uploadReq imgFile1,
         UpAction.updateReq "u1" "https://s/new.png" true] :=
  c7_update_uses_upload_url "u1" none none imgFile1 envOk "https://s/new.png"
    (by decide) (by decide) rfl (by decide)

/-- C8: a file strictly larger than 5,242,880 bytes is rejected with a
single blocking alert (the size message when the MIME type is an image,
otherwise the earlier type-check alert), with no network action of any
kind emitted and the preview untouched — regardless of MIME type. -/
theorem c8_size_reject (userId : String)
    (currentImageUrl previewUrl : Option String) (f : UpFile) (env : UploadEnv)
    (h : f.size > MAX_FILE_SIZE) :
    (handleFileChange userId currentImageUrl previewUrl (some f) env).1
      = [UpAction.alert (if mimeIsImage f.mime then "File size must be less than 5MB"
          else "Please select an image file")]
    ∧ ((handleFileChange userId currentImageUrl previewUrl (some f) env).1.filter
        isNetwork) = []
    ∧ (handleFileChange userId currentImageUrl previewUrl (some f) env).2
        = previewUrl := by
  cases hm : mimeIsImage f.mime <;>
    simp [handleFileChange, hm, h, isNetwork]

/-- Witness for C8 at concrete inputs: an oversized image file and an
oversized non-image file are both rejected without any network action. -/
theorem c8_witness :
    (handleFileChange "u1" none none (some bigFile) envOk).1
      = [UpAction.alert "File size must be less than 5MB"]
    ∧ (handleFileChange "u1" none none (some bigTextFile) envOk).1
      = [UpAction.alert "Please select an image file"] := by
  constructor
  · have h := c8_size_reject "u1" none none bigFile envOk (by decide)
    rw [h.1]
    decide
  · have h := c8_size_reject "u1" none none bigTextFile envOk (by decide)
    rw [h.1]
    decide

/-- C9: a file whose MIME type does not start with "image/" is rejected
with the blocking alert 'Please select an image file', with no network
action (neither upload nor profile-update) emitted and the preview
untouched. -/
theorem c9_mime_reject (userId : String)
    (currentImageUrl previewUrl : Option String) (f : UpFile) (env : UploadEnv)
    (h : mimeIsImage f.mime = false) :
    (handleFileChange userId currentImageUrl previewUrl (some f) env).1
      = [UpAction.alert "Please select an image file"]
    ∧ ((handleFileChange userId currentImageUrl previewUrl (some f) env).1.filter
        isNetwork) = []
    ∧ (handleFileChange userId currentImageUrl previewUrl (some f) env).2
        = previewUrl := by
  simp [handleFileChange, h, isNetwork]

/-- Witness for C9 at a concrete input: a small text file is rejected with
the type alert and no network action. -/
theorem c9_witness :
    (handleFileChange "u1" none none (some ⟨"a.txt", "text/plain", 100⟩)
        envOk).1 = [UpAction.alert "Please select an image file"]
    ∧ (handleFileChange "u1" none none (some ⟨"a.txt", "text/plain", 100⟩)
        envOk).2 = none := by
  have h := c9_mime_reject "u1" none none ⟨"a.txt", "text/plain", 100⟩ envOk
    (by decide)
  exact ⟨h.1, h.2.2⟩

/-- C10: an upload mutation that resolves without a truthy (non-empty)
`data?.uploadFile?.url` is treated as a failure — the
'No URL returned from upload' error is raised and caught, producing the
failure alert with that message, the preview revert, and no
profile-update request. -/
theorem c10_missing_url (userId : String)
    (currentImageUrl previewUrl : Option String) (f : UpFile) (env : UploadEnv)
    (url : Option String)
    (h1 : mimeIsImage f.mime = true) (h2 : f.size ≤ MAX_FILE_SIZE)
    (h3 : env.uploadFile = UploadOutcome.resolved url) (h4 : jsTruthy url = false) :
    (handleFileChange userId currentImageUrl previewUrl (some f) env).1
      = [UpAction.setPreview (some env.readerDataUrl), UpAction.uploadReq f,
         UpAction.logError,
         UpAction.alert (failAlertText "No URL returned from upload"),
         UpAction.setPreview (jsOrNull currentImageUrl)]
    ∧ failAlertText "No URL returned from upload"
        = "Failed to upload image: No URL returned from upload"
    ∧ ((handleFileChange userId currentImageUrl previewUrl (some f) env).1.filter
        isUpdateReq) = []
    ∧ (handleFileChange userId currentImageUrl previewUrl (some f) env).2
        = jsOrNull currentImageUrl := by
  obtain ⟨rdu, up, upd⟩ := env
  simp only [UploadEnv.uploadFile] at h3
  subst h3
  have h2' : ¬ (f.size > MAX_FILE_SIZE) := Nat.not_lt.mpr h2
  refine ⟨?_, by decide, ?_, ?_⟩ <;>
    simp [handleFileChange, h1, h2', h4, isUpdateReq]

/-- Witness for C10 at concrete inputs: an upload resolving with no url
field yields the failure alert, the revert, and no update request. -/
theorem c10_witness :
    (handleFileChange "u1" (some "https://s/p.png") none (some imgFile1)
        envNoUrl).2 = jsOrNull (some "https://s/p.png")
    ∧ ((handleFileChange "u1" (some "https://s/p.png") none (some imgFile1)
        envNoUrl).1.filter isUpdateReq) = [] := by
  have h := c10_missing_url "u1" (some "https://s/p.png") none imgFile1 envNoUrl
    none (by decide) (by decide) rfl (by decide)
  exact ⟨h.2.2.2, h.2.2.1⟩

end PrivyDemo
